import Mathlib

/-
Verification of the maritime route simulation repository.

Part 1 models the streaming ingestion pipeline
(src/data_engineering/ais_data_receiver.py): the quality monitor, the
validator, the buffered database manager with its flush logic, and the
front end of `process_message`.

Part 2 models the vessel kinematics simulator
(src/simulation/ais_simulation.py): route lengths, position
interpolation and the per-tick state update.

Conventions: message timestamps and coordinates in the ingestion part are
rationals, wall-clock instants are integer seconds; the geometry of the
simulator is over the reals.  Python dictionaries keyed by MMSI are
modelled as association lists in insertion order.
-/

/-! ### Validation errors (`AISProcessor.validate_ais_message`)

The Python code collects error strings; we represent each distinct error
string by a constructor, keeping the interpolated offending value. -/

inductive VError where
  /-- "Invalid MMSI number" -/
  | invalidMMSI : VError
  /-- "Missing coordinates" -/
  | missingCoordinates : VError
  /-- "Invalid latitude: {value}" -/
  | invalidLatitude (value : ℚ) : VError
  /-- "Invalid longitude: {value}" -/
  | invalidLongitude (value : ℚ) : VError
  /-- "Missing required field: msg_type" (the loop ranges over the single
  field name msg_type) -/
  | missingMsgType : VError
deriving DecidableEq

/-- Decoded AIS data as produced by the pyais decode boundary and consumed by
`validate_ais_message` / `process_message`.  A `none` models an absent key
(for `mmsi` it also models a present value that is not an `int`, which the
code treats identically). -/
structure DecodedData where
  mmsi : Option ℤ := none
  lat : Option ℚ := none
  lon : Option ℚ := none
  msg_type : Option ℤ := none
  speed : Option ℚ := none
  course : Option ℚ := none
  heading : Option ℚ := none
  status : Option ℤ := none
deriving DecidableEq

/-- Model of `AISProcessor.validate_ais_message`.  Mirrors the source: an
`if` for the MMSI rule, an `if`/`elif`/`elif` chain for the coordinate
rules, and an `if` for the msg_type rule; returns `(len(errors) == 0,
errors)`. -/
def validate_ais_message (data : DecodedData) : Bool × List VError :=
  let errors : List VError := []
  let errors : List VError :=
    match data.mmsi with
    | none => errors ++ [VError.invalidMMSI]
    | some m => if m ≤ 0 then errors ++ [VError.invalidMMSI] else errors
  let errors : List VError :=
    match data.lat, data.lon with
    | none, _ => errors ++ [VError.missingCoordinates]
    | some _, none => errors ++ [VError.missingCoordinates]
    | some la, some lo =>
      if ¬ (-90 ≤ la ∧ la ≤ 90) then errors ++ [VError.invalidLatitude la]
      else if ¬ (-180 ≤ lo ∧ lo ≤ 180) then errors ++ [VError.invalidLongitude lo]
      else errors
  let errors : List VError :=
    if data.msg_type = none then errors ++ [VError.missingMsgType] else errors
  (errors.isEmpty, errors)

/-! ### Quality monitor (`DataQualityMonitor`) -/

/-- Counters of `DataQualityMonitor` (the report timer is irrelevant to the
counter semantics and is not modelled). -/
structure DataQualityMonitor where
  total_messages : ℕ := 0
  valid_messages : ℕ := 0
  invalid_messages : ℕ := 0
  duplicate_messages : ℕ := 0
  malformed_messages : ℕ := 0
deriving DecidableEq

/-- Model of `DataQualityMonitor.record_message`. -/
def record_message (m : DataQualityMonitor) (is_valid : Bool)
    (is_duplicate : Bool := false) (is_malformed : Bool := false) :
    DataQualityMonitor where
  total_messages := m.total_messages + 1
  valid_messages := if is_valid then m.valid_messages + 1 else m.valid_messages
  invalid_messages := if is_valid then m.invalid_messages else m.invalid_messages + 1
  duplicate_messages :=
    if is_duplicate then m.duplicate_messages + 1 else m.duplicate_messages
  malformed_messages :=
    if is_malformed then m.malformed_messages + 1 else m.malformed_messages

/-- The five ways `AISProcessor.process_message` terminates, one per call
site of `record_message` in the source plus the successful path. -/
inductive ProcessOutcome where
  /-- json.JSONDecodeError handler -/
  | jsonDecodeError : ProcessOutcome
  /-- a required wire field is absent or falsy -/
  | missingRequiredFields : ProcessOutcome
  /-- the pyais decode boundary returned nothing -/
  | payloadDecodeFailed : ProcessOutcome
  /-- the message was validated (with the given verdict) and stored -/
  | validated (is_valid : Bool) : ProcessOutcome
  /-- generic exception handler -/
  | unexpectedError : ProcessOutcome
deriving DecidableEq

/-- The monitor update performed by `process_message` for each outcome,
exactly as at the corresponding call sites of `record_message`: the
`is_duplicate` argument is left at its default `false` at every one. -/
def recordProcessOutcome (m : DataQualityMonitor) :
    ProcessOutcome → DataQualityMonitor
  | ProcessOutcome.jsonDecodeError => record_message m false false true
  | ProcessOutcome.missingRequiredFields => record_message m false false true
  | ProcessOutcome.payloadDecodeFailed => record_message m false false true
  | ProcessOutcome.validated v => record_message m v
  | ProcessOutcome.unexpectedError => record_message m false

/-! ### Buffered persistence (`DatabaseManager`) -/

/-- The `AISMessage` dataclass (defined twice identically in the source;
modelled once).  Timestamps are rationals, coordinates rationals. -/
structure AISMessage where
  message_id : String
  mmsi : ℤ
  timestamp : ℚ
  payload : String
  latitude : ℚ
  longitude : ℚ
  speed : Option ℚ := none
  course : Option ℚ := none
  heading : Option ℚ := none
  navigation_status : Option ℤ := none
  message_type : Option ℤ := none
  is_valid : Bool := true
  validation_errors : List VError := []
deriving DecidableEq

/-- The unique-index key of the `ais_messages` table:
`(mmsi, timestamp, latitude, longitude)`. -/
def msgKey (m : AISMessage) : ℤ × ℚ × ℚ × ℚ :=
  (m.mmsi, m.timestamp, m.latitude, m.longitude)

/-- One `INSERT ... ON CONFLICT (mmsi, timestamp, latitude, longitude) DO
NOTHING`: a row whose key already exists in the table is silently skipped,
otherwise it is appended. -/
def insertMessage (rows : List AISMessage) (m : AISMessage) : List AISMessage :=
  if rows.any (fun r => msgKey r = msgKey m) then rows else rows ++ [m]

/-- The batched insert of the whole buffer into `ais_messages` (later rows
of the batch also conflict against rows inserted earlier in the same
statement). -/
def insertMessages (rows batch : List AISMessage) : List AISMessage :=
  batch.foldl insertMessage rows

/-- One row of the `vessels` summary table. -/
structure VesselRow where
  first_seen : ℚ
  last_seen : ℚ
  message_count : ℤ
deriving DecidableEq

/-- The `mmsi_latest` dictionary built in `flush_buffer`: per MMSI in
first-appearance order, the pair (min timestamp, max timestamp) over the
batch. -/
def mmsiLatest (buffer : List AISMessage) : List (ℤ × ℚ × ℚ) :=
  buffer.foldl
    (fun acc m =>
      match acc.lookup m.mmsi with
      | none => acc ++ [(m.mmsi, m.timestamp, m.timestamp)]
      | some (f, l) =>
        acc.map (fun p =>
          if p.1 = m.mmsi then (p.1, min f m.timestamp, max l m.timestamp) else p))
    []

/-- One row of the vessel upsert: `INSERT INTO vessels ... VALUES (mmsi,
first_seen, last_seen, 1) ON CONFLICT (mmsi) DO UPDATE SET first_seen =
LEAST(old, new), last_seen = GREATEST(old, new), message_count = old + 1`.
Note the inserted count is the literal `1` from the SQL template and the
conflict arm adds the literal `1`, whatever the batch size. -/
def upsertVessel (vs : List (ℤ × VesselRow)) (e : ℤ × ℚ × ℚ) :
    List (ℤ × VesselRow) :=
  match vs.lookup e.1 with
  | none => vs ++ [(e.1, ⟨e.2.1, e.2.2, 1⟩)]
  | some row =>
    vs.map (fun p =>
      if p.1 = e.1 then
        (p.1, ⟨min row.first_seen e.2.1, max row.last_seen e.2.2,
               row.message_count + 1⟩)
      else p)

/-- The committed storage: the two tables touched by `flush_buffer`. -/
structure Database where
  ais_messages : List AISMessage := []
  vessels : List (ℤ × VesselRow) := []
deriving DecidableEq

/-- State of a `DatabaseManager`: connection availability, committed
storage, the in-memory buffer and the flush clock.  `flushes` counts the
successful flushes (the "Flushed ... messages" log line). -/
structure DBState where
  connOk : Bool := true
  db : Database := {}
  message_buffer : List AISMessage := []
  last_flush_time : ℤ := 0
  flushes : ℕ := 0
deriving DecidableEq

/-- Buffer threshold `self.buffer_size = 100`. -/
def buffer_size : ℕ := 100

/-- Flush interval `self.flush_interval = 5` seconds.  Wall-clock instants
(`datetime.datetime.now()`) are modelled as integers (seconds). -/
def flush_interval : ℤ := 5

/-- Model of `DatabaseManager.flush_buffer`.  `writeOk` tells whether the
storage writes of this attempt succeed; on failure the exception handler
rolls the transaction back, so the committed state is kept and the buffer
is not cleared.  Empty buffer and unavailable connection return early. -/
def flush_buffer (writeOk : Bool) (now : ℤ) (st : DBState) : DBState :=
  if st.message_buffer = [] then st
  else if ¬ st.connOk then st
  else
    let msgs := insertMessages st.db.ais_messages st.message_buffer
    let vs := (mmsiLatest st.message_buffer).foldl upsertVessel st.db.vessels
    if writeOk then
      { st with
        db := ⟨msgs, vs⟩
        message_buffer := []
        last_flush_time := now
        flushes := st.flushes + 1 }
    else st

/-- Model of `DatabaseManager.store_message`: append to the buffer, then
flush when the buffer has reached `buffer_size` or more than
`flush_interval` has passed since the last flush. -/
def store_message (writeOk : Bool) (now : ℤ) (st : DBState) (m : AISMessage) :
    DBState :=
  let st := { st with message_buffer := st.message_buffer ++ [m] }
  if buffer_size ≤ st.message_buffer.length ∨
      flush_interval < now - st.last_flush_time then
    flush_buffer writeOk now st
  else st

/-! ### Front end of `AISProcessor.process_message` -/

/-- The `payload` wire field: a JSON string or a JSON array of strings. -/
inductive PayloadField where
  | str (s : String) : PayloadField
  | list (l : List String) : PayloadField
deriving DecidableEq

/-- A parsed wire message, after `json.loads`: the three required fields as
read by `message_data.get`, `none` for an absent key. -/
structure WireMessage where
  mmsi : Option ℤ := none
  timestamp : Option String := none
  payload : Option PayloadField := none
deriving DecidableEq

/-- Python truthiness of `message_data.get('mmsi')`. -/
def truthyInt : Option ℤ → Bool
  | none => false
  | some n => n ≠ 0

/-- Python truthiness of `message_data.get('timestamp')`. -/
def truthyStr : Option String → Bool
  | none => false
  | some s => s ≠ ""

/-- Python truthiness of `message_data.get('payload')`. -/
def truthyPayload : Option PayloadField → Bool
  | none => false
  | some (PayloadField.str s) => s ≠ ""
  | some (PayloadField.list l) => l ≠ []

/-- The `payload[0] if isinstance(payload, list) else payload` selection. -/
def payload_first : PayloadField → String
  | PayloadField.str s => s
  | PayloadField.list l =>
    match l with
    | [] => ""
    | s :: _ => s

/-- Model of `AISProcessor.process_message` on an already-JSON-parsed wire
message.  The pyais decode boundary and `datetime.fromisoformat` are
abstract parameters (`decode`, `parseTs`); `now` is the current wall
clock substituted for an unparseable timestamp.  Returns the outcome, the
updated quality monitor, and the list of messages handed to
`store_message` (empty exactly when the message is discarded with no
persistence attempt). -/
def process_message (decode : String → Option DecodedData)
    (parseTs : String → Option ℚ) (now : ℚ) (mon : DataQualityMonitor)
    (w : WireMessage) :
    ProcessOutcome × DataQualityMonitor × List AISMessage :=
  if ¬ (truthyInt w.mmsi ∧ truthyStr w.timestamp ∧ truthyPayload w.payload) then
    (ProcessOutcome.missingRequiredFields,
     record_message mon false false true, [])
  else
    let mmsi := w.mmsi.getD 0
    let tsStr := w.timestamp.getD ""
    let timestamp := match parseTs tsStr with
      | some t => t
      | none => now
    let payload_str := payload_first (w.payload.getD (PayloadField.str ""))
    match decode payload_str with
    | none =>
      (ProcessOutcome.payloadDecodeFailed,
       record_message mon false false true, [])
    | some dd =>
      let v := validate_ais_message dd
      (ProcessOutcome.validated v.1, record_message mon v.1,
       [{ message_id := toString mmsi ++ "_" ++ toString timestamp
          mmsi := mmsi
          timestamp := timestamp
          payload := payload_str
          latitude := dd.lat.getD 0
          longitude := dd.lon.getD 0
          speed := dd.speed
          course := dd.course
          heading := dd.heading
          navigation_status := dd.status
          message_type := dd.msg_type
          is_valid := v.1
          validation_errors := v.2 }])

/-! ### Part 2: vessel kinematics (`src/simulation/ais_simulation.py`)

The geometry is over the reals; `random.random()` draws are passed in as
explicit inputs. -/

noncomputable section

/-- Constant `EARTH_RADIUS = 6371.0` km from the source. -/
def EARTH_RADIUS : ℝ := 6371

/-- Constant `KNOTS_TO_KM_PER_HOUR = 1.852` from the source. -/
def KNOTS_TO_KM_PER_HOUR : ℝ := 1.852

/-- Degrees to radians (`math.radians`). -/
def radians (d : ℝ) : ℝ := d * Real.pi / 180

/-- Radians to degrees (`math.degrees`). -/
def degrees (r : ℝ) : ℝ := r * 180 / Real.pi

/-- Great-circle distance in km between two `[lat, lon]` points.  This
models the external `geopy.distance.geodesic(point1, point2).kilometers`
boundary as the spherical great-circle distance (the spec's glossary:
"Great-circle / geodesic distance: shortest-path distance between two
points on a sphere"), on a sphere of radius `EARTH_RADIUS`. -/
def geodesic_km (p q : ℝ × ℝ) : ℝ :=
  EARTH_RADIUS * Real.arccos
    (Real.sin (radians p.1) * Real.sin (radians q.1) +
     Real.cos (radians p.1) * Real.cos (radians q.1) *
       Real.cos (radians (q.2 - p.2)))

/-- Consecutive waypoint pairs of a route (the `range(len(...) - 1)`
loops). -/
def route_segments {α : Type} (coords : List α) : List (α × α) :=
  coords.zip coords.tail

/-- Model of `Vessel._calculate_total_distance` on the `[lon, lat]` route:
the source first builds `route_coords_lat_lon` by swapping each pair, then
sums `geodesic(point1, point2).kilometers` over consecutive pairs. -/
def calculate_total_distance (route_coordinates : List (ℝ × ℝ)) : ℝ :=
  (route_segments (route_coordinates.map Prod.swap)).foldl
    (fun acc s => acc + geodesic_km s.1 s.2) 0

/-- Planar length of a segment in lon/lat degree space: the metric of
shapely's `LineString`, which treats coordinates as a flat plane. -/
def eudist (p q : ℝ × ℝ) : ℝ :=
  Real.sqrt ((q.1 - p.1) ^ 2 + (q.2 - p.2) ^ 2)

/-- Planar (flat-earth) length of the whole `LineString`. -/
def euclidean_length (coords : List (ℝ × ℝ)) : ℝ :=
  (route_segments coords).foldl (fun acc s => acc + eudist s.1 s.2) 0

/-- Point at distance `d` along a polyline whose segment lengths are
measured by `seglen`, placing the point inside the segment found by
linear interpolation of the endpoint coordinates; past the total length
the last point is returned. -/
def point_along (seglen : ℝ × ℝ → ℝ × ℝ → ℝ) : List (ℝ × ℝ) → ℝ → ℝ × ℝ
  | [], _ => (0, 0)
  | [p], _ => p
  | p :: q :: rest, d =>
    let len := seglen p q
    if d ≤ len then
      if len = 0 then p
      else (p.1 + d / len * (q.1 - p.1), p.2 + d / len * (q.2 - p.2))
    else point_along seglen (q :: rest) (d - len)

/-- Model of shapely's `route_line.interpolate(fraction, normalized=True)`
for the argument range `0 ≤ fraction < 1` arising in `update_position`:
the point at `fraction` of the planar length of the line, measured and
placed with the planar metric. -/
def route_line_interpolate (coords : List (ℝ × ℝ)) (fraction : ℝ) : ℝ × ℝ :=
  point_along eudist coords (fraction * euclidean_length coords)

/-- Spec-side definition, written from the spec's words for the refinement
comparison of claim C3: "the point at fractional arc-length
`traveled/total` along the route polyline, found by linear interpolation
over geodesic segment lengths". -/
def spec_geodesic_point (coords : List (ℝ × ℝ)) (fraction : ℝ) : ℝ × ℝ :=
  point_along (fun p q => geodesic_km p.swap q.swap) coords
    (fraction * calculate_total_distance coords)

/-- The two-argument arctangent `math.atan2(y, x)`, modelled by the
argument of the complex number `x + y*i`. -/
def atan2 (y x : ℝ) : ℝ := Complex.arg ⟨x, y⟩

/-- Python float `x % m` for a positive modulus `m`. -/
def pymod (x m : ℝ) : ℝ := x - m * (⌊x / m⌋ : ℝ)

/-- Model of `Vessel._calculate_heading` on `[lat, lon]` points: initial
bearing in degrees, normalized to `[0, 360)` by `(bearing + 360) % 360`. -/
def calculate_heading (p1 p2 : ℝ × ℝ) : ℝ :=
  let lat1 := radians p1.1
  let lon1 := radians p1.2
  let lat2 := radians p2.1
  let lon2 := radians p2.2
  let dlon := lon2 - lon1
  let y := Real.sin dlon * Real.cos lat2
  let x := Real.cos lat1 * Real.sin lat2 -
    Real.sin lat1 * Real.cos lat2 * Real.cos dlon
  pymod (degrees (atan2 y x) + 360) 360

/-- Model of `Vessel._calculate_initial_heading` on the `[lat, lon]`
waypoint list. -/
def calculate_initial_heading (route_coords_lat_lon : List (ℝ × ℝ)) : ℝ :=
  match route_coords_lat_lon with
  | p1 :: p2 :: _ => calculate_heading p1 p2
  | _ => 0

/-- Bounding-box coordinate test of the heading segment search
(`lon_in_range` / `lat_in_range`). -/
def coordInRange (a b x : ℝ) : Bool :=
  if a ≤ b then decide (a ≤ x ∧ x ≤ b) else decide (b ≤ x ∧ x ≤ a)

/-- The heading after the segment search in `update_position`: recomputed
from the first route segment whose bounding box contains the current
position, or the previous heading when no segment is found. -/
def heading_after_move (route_coordinates : List (ℝ × ℝ)) (pos : ℝ × ℝ)
    (old : ℝ) : ℝ :=
  match (route_segments route_coordinates).find?
      (fun s => coordInRange s.1.1 s.2.1 pos.1 &&
        coordInRange s.1.2 s.2.2 pos.2) with
  | some s => calculate_heading (s.1.2, s.1.1) (s.2.2, s.2.1)
  | none => old

/-- State of a `Vessel`: the fields assigned in `__init__` and mutated by
`update_position` (the derived `route_coords_lat_lon` and `route_line`
are recomputed from `route_coordinates`, which is never mutated). -/
structure Vessel where
  mmsi : ℤ
  route_coordinates : List (ℝ × ℝ)
  speed_knots : ℝ
  speed_km_h : ℝ
  total_distance_km : ℝ
  current_position : ℝ × ℝ
  current_distance_traveled : ℝ
  heading : ℝ

/-- Model of `Vessel.__init__` (the source reads `route_coordinates[0]`,
so routes are nonempty there; an empty route gets the origin). -/
def Vessel.init (mmsi : ℤ) (route_coordinates : List (ℝ × ℝ))
    (speed_knots : ℝ := 12) : Vessel where
  mmsi := mmsi
  route_coordinates := route_coordinates
  speed_knots := speed_knots
  speed_km_h := speed_knots * KNOTS_TO_KM_PER_HOUR
  total_distance_km := calculate_total_distance route_coordinates
  current_position := route_coordinates.headD (0, 0)
  current_distance_traveled := 0
  heading := calculate_initial_heading (route_coordinates.map Prod.swap)

/-- The dictionary returned by `update_position`. -/
structure PositionInfo where
  position : ℝ × ℝ
  heading : ℝ
  speed : ℝ
  complete : Bool

/-- Model of `Vessel.update_position`.  `rand` is the draw of
`random.random()` used in the speed perturbation; the result is the new
vessel state together with the returned dictionary. -/
def update_position (v : Vessel) (time_interval_minutes : ℝ) (rand : ℝ) :
    Vessel × PositionInfo :=
  let hours := time_interval_minutes / 60
  let distance_km := v.speed_km_h * hours
  let traveled := v.current_distance_traveled + distance_km
  if v.total_distance_km ≤ traveled then
    let pos := v.route_coordinates.getLastD (0, 0)
    ({ v with current_distance_traveled := traveled, current_position := pos },
     ⟨pos, v.heading, v.speed_knots, true⟩)
  else
    let fraction := traveled / v.total_distance_km
    let pos := route_line_interpolate v.route_coordinates fraction
    let hd := heading_after_move v.route_coordinates pos v.heading
    let sp0 := v.speed_knots + (rand * 2 - 1) * 2
    let sp : ℝ := if sp0 < 5 then 5 else if 20 < sp0 then 20 else sp0
    ({ v with
        current_distance_traveled := traveled
        current_position := pos
        heading := hd
        speed_knots := sp
        speed_km_h := sp * KNOTS_TO_KM_PER_HOUR },
     ⟨pos, hd, sp, false⟩)

/-- Advance a vessel through a list of ticks, each a pair (elapsed
minutes, random draw). -/
def run_updates (v : Vessel) (ticks : List (ℝ × ℝ)) : Vessel :=
  ticks.foldl (fun w t => (update_position w t.1 t.2).1) v

/-- Speed assigned by `create_vessels_from_routes` with its default
`base_speed = 12.0`, `speed_variation = 2.0` and random draw `r`. -/
def created_speed (r : ℝ) : ℝ := 12 + (r * 2 - 1) * 2

end

/-! ### Concrete inputs used by the theorems below -/

noncomputable section

/-- Concrete three-waypoint route, `[lon, lat]` pairs: equator point, a
point due north of it, and the antipodal point on the same parallel.  Its
geodesic and planar segment lengths are exactly computable. -/
def c3_route : List (ℝ × ℝ) := [(0, 0), (0, 60), (180, 60)]

/-- A vessel on `c3_route` that has already traveled a quarter great
circle, strictly less than the total route length. -/
def c3_vessel : Vessel :=
  { Vessel.init 200000001 c3_route 12 with
    current_distance_traveled := EARTH_RADIUS * Real.pi / 4 }

end

/-- Family of pairwise distinct valid messages used in the flush-trigger
scenarios. -/
def sample_message (i : ℕ) : AISMessage :=
  { message_id := "", mmsi := 7, timestamp := (i : ℚ), payload := "",
    latitude := 0, longitude := 0 }

/-- Decoded field set with a negative MMSI and an out-of-range latitude and
longitude at once. -/
def c2_data : DecodedData :=
  { mmsi := some (-1), lat := some 91, lon := some 181, msg_type := some 1 }

/-- Decoded field set with a valid MMSI but latitude and longitude both
out of range at once. -/
def c2_both_coords : DecodedData :=
  { mmsi := some 123456789, lat := some 91, lon := some 181,
    msg_type := some 1 }

/-- A message for the idempotence scenario. -/
def c8_m1 : AISMessage :=
  { message_id := "a", mmsi := 1, timestamp := 0, payload := "p1",
    latitude := 0, longitude := 0 }

/-- A second message with the same `(mmsi, timestamp, latitude, longitude)`
key as `c8_m1` but different non-key content. -/
def c8_m2 : AISMessage :=
  { c8_m1 with message_id := "b", payload := "p2" }

/-- Wire message whose required fields are all present but whose `mmsi` is
the falsy integer `0`. -/
def c10_wire : WireMessage :=
  { mmsi := some 0, timestamp := some "2024-01-01T00:00:00",
    payload := some (PayloadField.str "!AIVDM") }

/-! ### Ingestion pipeline theorems -/

/-- C1: the claim says `flush_buffer` increments the vessel summary
`message_count` by one per message of the batch for that vessel; the code
increments it by exactly one per flushed batch, whatever the batch size.
Flushing a batch of two messages for vessel 7 (timestamps 1 and 2) over an
existing summary row `(first_seen 0, last_seen 0, count 5)` produces the
row `(0, 2, 6)` — `first_seen`/`last_seen` merge as claimed, but the count
becomes 6, not the claimed 5 + 2 = 7. -/
theorem C1_vessel_count_per_batch :
    (flush_buffer true 0
      { db := { vessels := [(7, ⟨0, 0, 5⟩)] },
        message_buffer :=
          [{ message_id := "a", mmsi := 7, timestamp := 1, payload := "",
             latitude := 0, longitude := 0 },
           { message_id := "b", mmsi := 7, timestamp := 2, payload := "",
             latitude := 1, longitude := 0 }] }).db.vessels =
      [(7, ⟨0, 2, 6⟩)] ∧
    (flush_buffer true 0
      { db := { vessels := [(7, ⟨0, 0, 5⟩)] },
        message_buffer :=
          [{ message_id := "a", mmsi := 7, timestamp := 1, payload := "",
             latitude := 0, longitude := 0 },
           { message_id := "b", mmsi := 7, timestamp := 2, payload := "",
             latitude := 1, longitude := 0 }] }).db.vessels ≠
      [(7, ⟨0, 2, 7⟩)] := by
  decide

/-- C2 counterexample: for a field set whose latitude (91) and longitude
(181) are simultaneously out of range, `validate_ais_message` returns only
the latitude error — the longitude error is not in the list, contradicting
the claim that both errors appear. -/
theorem C2_counterexample :
    (validate_ais_message c2_both_coords).2 = [VError.invalidLatitude 91] ∧
    ¬ (-180 ≤ (181 : ℚ) ∧ (181 : ℚ) ≤ 180) := by
  decide

/-- C2 (amended): the MMSI rule is checked independently of the coordinate
rules, so an invalid MMSI and an invalid latitude are both reported; but
within the coordinate group the checks chain (`elif`), so when the
latitude is out of range the result carries no longitude error of any
value. -/
theorem C2_amended (d : DecodedData) (m : ℤ) (la lo : ℚ)
    (hm : d.mmsi = some m) (hm0 : m ≤ 0)
    (hla : d.lat = some la) (hlo : d.lon = some lo)
    (hrange : ¬ (-90 ≤ la ∧ la ≤ 90)) :
    VError.invalidMMSI ∈ (validate_ais_message d).2 ∧
    VError.invalidLatitude la ∈ (validate_ais_message d).2 ∧
    (validate_ais_message d).1 = false ∧
    ∀ q : ℚ, VError.invalidLongitude q ∉ (validate_ais_message d).2 := by
  simp only [validate_ais_message, hm, hla, hlo, if_pos hm0, if_pos hrange]
  rcases d.msg_type with _ | t <;> simp

/-- C2 witness: at `mmsi = -1`, `lat = 91`, `lon = 181` both the MMSI and
the latitude error are present, the result is invalid, and no longitude
error is reported. -/
theorem C2_amended_witness :
    VError.invalidMMSI ∈ (validate_ais_message c2_data).2 ∧
    VError.invalidLatitude 91 ∈ (validate_ais_message c2_data).2 ∧
    (validate_ais_message c2_data).1 = false ∧
    VError.invalidLongitude 181 ∉ (validate_ais_message c2_data).2 := by
  have h := C2_amended c2_data (-1) 91 181 rfl (by norm_num) rfl rfl (by norm_num)
  exact ⟨h.1, h.2.1, h.2.2.1, h.2.2.2 181⟩

/-- C6: when the storage write of a flush attempt fails, the exception
handler rolls the transaction back: the whole manager state — committed
tables, in-memory buffer and flush clock — is exactly what it was before
the attempt, so the same records remain available for a future flush. -/
theorem C6_flush_failure_rollback (now : ℤ) (st : DBState) :
    flush_buffer false now st = st ∧
    (flush_buffer false now st).message_buffer = st.message_buffer := by
  have h : flush_buffer false now st = st := by
    unfold flush_buffer
    split
    · rfl
    · split
      · rfl
      · simp
  exact ⟨h, by rw [h]⟩

/-- C7: `store_message` flushes exactly when, after the append, the buffer
has reached `buffer_size` or more than `flush_interval` has passed since
the last flush; a successful flush empties the buffer and resets the flush
clock.  In particular 100 appends from a fresh manager at one instant
flush exactly once with no manual trigger, and one buffered record
followed by a 6-second pause is flushed by the next append check. -/
theorem C7_flush_triggers :
    (∀ (now : ℤ) (st : DBState) (m : AISMessage), st.connOk = true →
      ((store_message true now st m).flushes = st.flushes + 1 ↔
        (buffer_size ≤ st.message_buffer.length + 1 ∨
         flush_interval < now - st.last_flush_time))) ∧
    (∀ (now : ℤ) (st : DBState) (m : AISMessage), st.connOk = true →
      (buffer_size ≤ st.message_buffer.length + 1 ∨
       flush_interval < now - st.last_flush_time) →
      (store_message true now st m).message_buffer = [] ∧
      (store_message true now st m).last_flush_time = now) ∧
    ((((List.range 100).map sample_message).foldl (store_message true 0) {} :
        DBState).flushes = 1 ∧
     (((List.range 100).map sample_message).foldl (store_message true 0) {} :
        DBState).message_buffer = []) ∧
    ((store_message true 0 {} (sample_message 0)).flushes = 0 ∧
     (store_message true 6 (store_message true 0 {} (sample_message 0))
        (sample_message 1)).flushes = 1 ∧
     (store_message true 6 (store_message true 0 {} (sample_message 0))
        (sample_message 1)).message_buffer = []) := by
  refine ⟨?_, ?_, ?_, ?_⟩
  · intro now st m hc
    have hne : st.message_buffer ++ [m] ≠ [] := by simp
    unfold store_message
    simp only [List.length_append, List.length_singleton]
    by_cases hcond : buffer_size ≤ st.message_buffer.length + 1 ∨
        flush_interval < now - st.last_flush_time
    · rw [if_pos hcond]
      unfold flush_buffer
      simp only [hne, if_false, hc]
      simp [hcond]
    · rw [if_neg hcond]
      simp only [hcond, iff_false]
      omega
  · intro now st m hc hcond
    have hne : st.message_buffer ++ [m] ≠ [] := by simp
    unfold store_message
    simp only [List.length_append, List.length_singleton]
    rw [if_pos hcond]
    unfold flush_buffer
    simp only [hne, if_false, hc]
    simp
  · set_option maxRecDepth 100000 in decide
  · set_option maxRecDepth 10000 in decide

/-- C7 witness: a single record appended 6 seconds after the last flush
triggers the time-based flush from a fresh manager: the flush counter
increments, the buffer is emptied and the flush clock is reset to the
append instant. -/
theorem C7_flush_triggers_witness :
    ((store_message true 6 ({} : DBState) (sample_message 0)).flushes =
        ({} : DBState).flushes + 1 ↔
      (buffer_size ≤ ({} : DBState).message_buffer.length + 1 ∨
       flush_interval < 6 - ({} : DBState).last_flush_time)) ∧
    (store_message true 6 ({} : DBState) (sample_message 0)).message_buffer
        = [] ∧
    (store_message true 6 ({} : DBState) (sample_message 0)).last_flush_time
        = 6 :=
  ⟨C7_flush_triggers.1 6 {} (sample_message 0) rfl,
   C7_flush_triggers.2.1 6 {} (sample_message 0) rfl (Or.inr (by decide))⟩

/-- C8: flushing is idempotent on the key `(mmsi, timestamp, latitude,
longitude)`: inserting two records with the same key — within one batch or
across two flushes — leaves exactly one stored row with that key, namely
the first record (first write wins; the conflicting later row is silently
ignored); and the messages table produced by a successful flush is exactly
this conflict-skipping batched insert of the buffer. -/
theorem C8_flush_idempotent (m1 m2 : AISMessage) (rows : List AISMessage)
    (hkey : msgKey m1 = msgKey m2)
    (hfresh : ∀ r ∈ rows, ¬ msgKey r = msgKey m1) :
    (insertMessages rows [m1, m2]).filter
      (fun r => decide (msgKey r = msgKey m1)) = [m1] ∧
    (insertMessages (insertMessages rows [m1]) [m2]).filter
      (fun r => decide (msgKey r = msgKey m1)) = [m1] ∧
    (∀ (now : ℤ) (st : DBState), st.connOk = true → st.message_buffer ≠ [] →
      (flush_buffer true now st).db.ais_messages =
        insertMessages st.db.ais_messages st.message_buffer) := by
  have h1 : insertMessage rows m1 = rows ++ [m1] := by
    unfold insertMessage
    rw [if_neg]
    simp only [List.any_eq_true, decide_eq_true_eq, not_exists, not_and]
    exact hfresh
  have h2 : insertMessage (rows ++ [m1]) m2 = rows ++ [m1] := by
    unfold insertMessage
    rw [if_pos]
    simp only [List.any_eq_true, decide_eq_true_eq]
    exact ⟨m1, by simp, by rw [hkey]⟩
  have hfilter : (rows ++ [m1]).filter
      (fun r => decide (msgKey r = msgKey m1)) = [m1] := by
    rw [List.filter_append]
    rw [List.filter_eq_nil_iff.mpr (by intro r hr; simpa using hfresh r hr)]
    simp
  refine ⟨?_, ?_, ?_⟩
  · show (insertMessage (insertMessage rows m1) m2).filter _ = [m1]
    rw [h1, h2, hfilter]
  · show (insertMessage (insertMessage rows m1) m2).filter _ = [m1]
    rw [h1, h2, hfilter]
  · intro now st hc hne
    unfold flush_buffer
    rw [if_neg hne, if_neg (by simp [hc])]
    simp

/-- C8 witness: two concrete records sharing a key but with different
payloads, flushed into an empty table within one batch and across two
batches, leave exactly the first record as the only row with that key. -/
theorem C8_flush_idempotent_witness :
    (insertMessages [] [c8_m1, c8_m2]).filter
      (fun r => decide (msgKey r = msgKey c8_m1)) = [c8_m1] ∧
    (insertMessages (insertMessages [] [c8_m1]) [c8_m2]).filter
      (fun r => decide (msgKey r = msgKey c8_m1)) = [c8_m1] := by
  have h := C8_flush_idempotent c8_m1 c8_m2 [] rfl (by simp)
  exact ⟨h.1, h.2.1⟩

/-- Helper: `record_message` with `is_duplicate = false` keeps the
duplicate counter, increments the total by one, and increments
`valid + invalid` by one. -/
theorem record_message_counters (m : DataQualityMonitor) (v mal : Bool) :
    (record_message m v false mal).duplicate_messages =
      m.duplicate_messages ∧
    (record_message m v false mal).total_messages = m.total_messages + 1 ∧
    (record_message m v false mal).valid_messages +
      (record_message m v false mal).invalid_messages =
      m.valid_messages + m.invalid_messages + 1 := by
  cases v <;> (simp [record_message]; omega)

/-- Helper: every `record_message` call site of `process_message` leaves
the duplicate counter unchanged and increments total and valid+invalid. -/
theorem recordProcessOutcome_counters (m : DataQualityMonitor)
    (o : ProcessOutcome) :
    (recordProcessOutcome m o).duplicate_messages = m.duplicate_messages ∧
    (recordProcessOutcome m o).total_messages = m.total_messages + 1 ∧
    (recordProcessOutcome m o).valid_messages +
      (recordProcessOutcome m o).invalid_messages =
      m.valid_messages + m.invalid_messages + 1 := by
  cases o <;> exact record_message_counters m _ _

/-- Helper: folding any outcome sequence never touches the duplicate
counter. -/
theorem monitor_fold_duplicates (outcomes : List ProcessOutcome) :
    ∀ m : DataQualityMonitor,
      (outcomes.foldl recordProcessOutcome m).duplicate_messages =
        m.duplicate_messages := by
  induction outcomes with
  | nil => intro m; rfl
  | cons o rest ih =>
    intro m
    rw [List.foldl_cons, ih]
    exact (recordProcessOutcome_counters m o).1

/-- Helper: `total = valid + invalid` is preserved by every recorded
message. -/
theorem monitor_fold_total (outcomes : List ProcessOutcome) :
    ∀ m : DataQualityMonitor,
      m.total_messages = m.valid_messages + m.invalid_messages →
      (outcomes.foldl recordProcessOutcome m).total_messages =
        (outcomes.foldl recordProcessOutcome m).valid_messages +
        (outcomes.foldl recordProcessOutcome m).invalid_messages := by
  induction outcomes with
  | nil => intro m h; exact h
  | cons o rest ih =>
    intro m h
    rw [List.foldl_cons]
    apply ih
    have hc := recordProcessOutcome_counters m o
    omega

/-- C9: no call site of `record_message` in the ingestion pipeline ever
passes `is_duplicate = True`, so after any sequence of processed messages
the duplicate counter is still 0 and `total = valid + invalid` holds. -/
theorem C9_monitor_invariant (outcomes : List ProcessOutcome) :
    (outcomes.foldl recordProcessOutcome {}).duplicate_messages = 0 ∧
    (outcomes.foldl recordProcessOutcome {}).total_messages =
      (outcomes.foldl recordProcessOutcome {}).valid_messages +
      (outcomes.foldl recordProcessOutcome {}).invalid_messages :=
  ⟨monitor_fold_duplicates outcomes {}, monitor_fold_total outcomes {} rfl⟩

/-- C10: `process_message` discards a wire message as malformed — counting
it and attempting no persistence — whenever a required field is absent or
present with a falsy value, because presence is tested by truthiness
(`if not all([mmsi, timestamp_str, payload])`); in particular `mmsi = 0`,
an empty timestamp string, an empty payload string and an empty payload
list are all treated as missing. -/
theorem C10_falsy_fields_malformed (decode : String → Option DecodedData)
    (parseTs : String → Option ℚ) (now : ℚ) (mon : DataQualityMonitor)
    (w : WireMessage)
    (h : truthyInt w.mmsi = false ∨ truthyStr w.timestamp = false ∨
      truthyPayload w.payload = false) :
    process_message decode parseTs now mon w =
      (ProcessOutcome.missingRequiredFields,
       record_message mon false false true, []) ∧
    truthyInt (some 0) = false ∧
    truthyStr (some "") = false ∧
    truthyPayload (some (PayloadField.str "")) = false ∧
    truthyPayload (some (PayloadField.list [])) = false := by
  refine ⟨?_, by decide, by decide, by decide, by decide⟩
  unfold process_message
  rw [if_pos]
  rcases h with h | h | h <;> simp [h]

/-- C10 witness: a wire message carrying `mmsi = 0` with the other required
fields present and truthy is classified as malformed (counted against the
malformed counter) and nothing is handed to storage. -/
theorem C10_falsy_fields_malformed_witness :
    process_message (fun _ => none) (fun _ => none) 0 {} c10_wire =
      (ProcessOutcome.missingRequiredFields,
       record_message {} false false true, []) :=
  (C10_falsy_fields_malformed (fun _ => none) (fun _ => none) 0 {} c10_wire
    (Or.inl (by decide))).1

/-! ### Simulator theorems -/

/-- Helper: `radians 0 = 0`. -/
theorem radians_zero : radians 0 = 0 := by unfold radians; ring

/-- Helper: `radians 60 = pi / 3`. -/
theorem radians_sixty : radians 60 = Real.pi / 3 := by unfold radians; ring

/-- Helper: `radians 180 = pi`. -/
theorem radians_one_eighty : radians 180 = Real.pi := by unfold radians; ring

/-- Helper: `arccos (1/2) = pi / 3`. -/
theorem arccos_one_half : Real.arccos (1 / 2) = Real.pi / 3 := by
  rw [← Real.cos_pi_div_three]
  exact Real.arccos_cos (by positivity) (by linarith [Real.pi_pos])

/-- Helper: great-circle length of the meridian segment from `(lat 0, lon
0)` to `(lat 60, lon 0)`. -/
theorem geodesic_AB : geodesic_km (0, 0) (60, 0) =
    EARTH_RADIUS * (Real.pi / 3) := by
  show EARTH_RADIUS * Real.arccos (Real.sin (radians 0) * Real.sin (radians 60) +
    Real.cos (radians 0) * Real.cos (radians 60) * Real.cos (radians (0 - 0))) = _
  rw [show (0:ℝ) - 0 = 0 by norm_num, radians_zero, radians_sixty]
  rw [Real.sin_zero, Real.cos_zero, Real.cos_pi_div_three]
  norm_num [arccos_one_half]

/-- Helper: great-circle length from `(lat 60, lon 0)` to the antipodal
point `(lat 60, lon 180)` of the same parallel (the arc runs over the
pole). -/
theorem geodesic_BC :
    geodesic_km (60, 0) (60, 180) = EARTH_RADIUS * (Real.pi / 3) := by
  show EARTH_RADIUS * Real.arccos (Real.sin (radians 60) * Real.sin (radians 60) +
    Real.cos (radians 60) * Real.cos (radians 60) * Real.cos (radians (180 - 0))) = _
  rw [show (180:ℝ) - 0 = 180 by norm_num, radians_sixty, radians_one_eighty]
  rw [Real.cos_pi, Real.sin_pi_div_three, Real.cos_pi_div_three]
  rw [show Real.sqrt 3 / 2 * (Real.sqrt 3 / 2) + 1 / 2 * (1 / 2) * (-1) =
      Real.sqrt 3 * Real.sqrt 3 / 4 - 1 / 4 by ring]
  rw [Real.mul_self_sqrt (by norm_num : (0:ℝ) ≤ 3)]
  norm_num [arccos_one_half]

/-- Helper: total geodesic length of `c3_route`. -/
theorem c3_total :
    calculate_total_distance c3_route = EARTH_RADIUS * (2 * Real.pi / 3) := by
  have h : calculate_total_distance c3_route =
      0 + geodesic_km (0, 0) (60, 0) + geodesic_km (60, 0) (60, 180) := rfl
  rw [h, geodesic_AB, geodesic_BC]
  ring

/-- Helper: planar length of the first `c3_route` segment. -/
theorem eudist_AB : eudist (0, 0) (0, 60) = 60 := by
  show Real.sqrt ((0 - 0) ^ 2 + (60 - 0) ^ 2) = 60
  rw [show ((0:ℝ) - 0) ^ 2 + (60 - 0) ^ 2 = 60 ^ 2 by ring]
  exact Real.sqrt_sq (by norm_num)

/-- Helper: planar length of the second `c3_route` segment. -/
theorem eudist_BC : eudist (0, 60) (180, 60) = 180 := by
  show Real.sqrt ((180 - 0) ^ 2 + (60 - 60) ^ 2) = 180
  rw [show ((180:ℝ) - 0) ^ 2 + (60 - 60) ^ 2 = 180 ^ 2 by ring]
  exact Real.sqrt_sq (by norm_num)

/-- Helper: `eudist_AB` with the origin written as the zero pair. -/
theorem eudist_AB0 : eudist 0 (0, 60) = 60 := eudist_AB

/-- Helper: `geodesic_AB` with the origin written as the zero pair. -/
theorem geodesic_AB0 : geodesic_km 0 (60, 0) = EARTH_RADIUS * (Real.pi / 3) :=
  geodesic_AB

/-- Helper: total planar length of `c3_route`. -/
theorem c3_euclid : euclidean_length c3_route = 240 := by
  have h : euclidean_length c3_route =
      0 + eudist (0, 0) (0, 60) + eudist (0, 60) (180, 60) := rfl
  rw [h, eudist_AB, eudist_BC]
  norm_num

/-- Helper: the planar (shapely) interpolation of `c3_route` at fraction
3/8 lands 30 degrees into the second segment. -/
theorem c3_interp : route_line_interpolate c3_route (3 / 8) = (30, 60) := by
  unfold route_line_interpolate
  rw [c3_euclid, show (3:ℝ) / 8 * 240 = 90 by norm_num]
  unfold c3_route
  norm_num [point_along, eudist_AB, eudist_BC, eudist_AB0]

/-- Helper: the spec-side geodesic interpolation of `c3_route` at fraction
3/8 lands three quarters of the way up the first (meridian) segment. -/
theorem c3_spec_point : spec_geodesic_point c3_route (3 / 8) = (0, 45) := by
  have hR : (0:ℝ) < EARTH_RADIUS := by unfold EARTH_RADIUS; norm_num
  have hpi := Real.pi_pos
  unfold spec_geodesic_point
  rw [c3_total, show (3:ℝ) / 8 * (EARTH_RADIUS * (2 * Real.pi / 3)) =
    EARTH_RADIUS * Real.pi / 4 by ring]
  unfold c3_route
  have hle : EARTH_RADIUS * Real.pi / 4 ≤ EARTH_RADIUS * (Real.pi / 3) := by
    nlinarith
  have hne : EARTH_RADIUS * (Real.pi / 3) ≠ 0 := by positivity
  have hratio : EARTH_RADIUS * Real.pi / 4 / (EARTH_RADIUS * (Real.pi / 3))
      = 3 / 4 := by
    rw [div_eq_iff hne]
    ring
  norm_num [point_along, Prod.swap, geodesic_AB0, geodesic_BC, hle, hne, hratio]

/-- Helper: in the incomplete branch, `update_position` places the vessel
with the planar shapely interpolation at the geodesic fraction. -/
theorem update_position_not_complete (v : Vessel) (m r : ℝ)
    (h : v.current_distance_traveled + v.speed_km_h * (m / 60) <
      v.total_distance_km) :
    (update_position v m r).2.position =
      route_line_interpolate v.route_coordinates
        ((v.current_distance_traveled + v.speed_km_h * (m / 60)) /
          v.total_distance_km) := by
  simp only [update_position]
  rw [if_neg (not_le.mpr h)]

/-- Helper: when the accumulated distance of a tick reaches the total, the
complete branch returns the last waypoint, keeps the route, total and
speed, and leaves the accumulated distance at or beyond the total. -/
theorem update_position_complete (v : Vessel) (m r : ℝ)
    (hcond : v.total_distance_km ≤
      v.current_distance_traveled + v.speed_km_h * (m / 60)) :
    (update_position v m r).2.complete = true ∧
    (update_position v m r).2.position = v.route_coordinates.getLastD (0, 0) ∧
    (update_position v m r).1.route_coordinates = v.route_coordinates ∧
    (update_position v m r).1.total_distance_km = v.total_distance_km ∧
    (update_position v m r).1.speed_km_h = v.speed_km_h ∧
    (update_position v m r).1.total_distance_km ≤
      (update_position v m r).1.current_distance_traveled := by
  simp only [update_position]
  rw [if_pos hcond]
  exact ⟨rfl, rfl, rfl, rfl, rfl, hcond⟩

/-- Helper: one tick keeps the speed within `[5, 20]` — the complete branch
returns it unchanged, the incomplete branch clamps after the perturbation —
and the returned speed equals the stored one. -/
theorem update_position_speed (v : Vessel) (m r : ℝ)
    (h5 : 5 ≤ v.speed_knots) (h20 : v.speed_knots ≤ 20) :
    (5 ≤ (update_position v m r).1.speed_knots ∧
     (update_position v m r).1.speed_knots ≤ 20) ∧
    (update_position v m r).2.speed = (update_position v m r).1.speed_knots := by
  simp only [update_position]
  split
  · exact ⟨⟨h5, h20⟩, rfl⟩
  · refine ⟨⟨?_, ?_⟩, rfl⟩ <;> simp only [] <;> split_ifs <;> linarith

/-- Helper: the speed bound is preserved by any run of ticks. -/
theorem run_updates_speed (ticks : List (ℝ × ℝ)) :
    ∀ v : Vessel, 5 ≤ v.speed_knots → v.speed_knots ≤ 20 →
      5 ≤ (run_updates v ticks).speed_knots ∧
      (run_updates v ticks).speed_knots ≤ 20 := by
  induction ticks with
  | nil => exact fun v h5 h20 => ⟨h5, h20⟩
  | cons t rest ih =>
    intro v h5 h20
    have h := update_position_speed v t.1 t.2 h5 h20
    simpa [run_updates] using ih (update_position v t.1 t.2).1 h.1.1 h.1.2

/-- Helper: once the accumulated distance is at or beyond the total, a run
of nonnegative-duration ticks keeps it there, and keeps the route and the
nonnegativity of the speed. -/
theorem run_updates_stay_complete (ticks : List (ℝ × ℝ)) :
    ∀ v : Vessel, (∀ t ∈ ticks, 0 ≤ t.1) → 0 ≤ v.speed_km_h →
      v.total_distance_km ≤ v.current_distance_traveled →
      (run_updates v ticks).route_coordinates = v.route_coordinates ∧
      0 ≤ (run_updates v ticks).speed_km_h ∧
      (run_updates v ticks).total_distance_km ≤
        (run_updates v ticks).current_distance_traveled := by
  induction ticks with
  | nil => exact fun v _ hsp ht => ⟨rfl, hsp, ht⟩
  | cons t rest ih =>
    intro v hticks hsp ht
    have hd : 0 ≤ v.speed_km_h * (t.1 / 60) :=
      mul_nonneg hsp (div_nonneg (hticks t (by simp)) (by norm_num))
    have hc := update_position_complete v t.1 t.2 (by linarith)
    have hrest := ih (update_position v t.1 t.2).1
      (fun s hs => hticks s (by simp [hs])) (hc.2.2.2.2.1 ▸ hsp) hc.2.2.2.2.2
    refine ⟨?_, hrest.2.1, hrest.2.2⟩
    rw [show run_updates v (t :: rest) =
      run_updates (update_position v t.1 t.2).1 rest by simp [run_updates]]
    rw [hrest.1, hc.2.2.1]

/-- Helper: the route total of `c3_vessel`. -/
theorem c3_vessel_total :
    c3_vessel.total_distance_km = EARTH_RADIUS * (2 * Real.pi / 3) := by
  rw [show c3_vessel.total_distance_km = calculate_total_distance c3_route
    from rfl, c3_total]

/-- Helper: the accumulated distance of `c3_vessel`. -/
theorem c3_vessel_traveled :
    c3_vessel.current_distance_traveled = EARTH_RADIUS * Real.pi / 4 := rfl

/-- C3 counterexample: `c3_vessel` has traveled strictly less than its
total route length, yet a zero-duration tick of `update_position` returns
the position `(30, 60)` — placed by flat-earth interpolation — which is
not the point `(0, 45)` at fractional arc-length traveled/total by linear
interpolation over geodesic segment lengths. -/
theorem C3_counterexample :
    c3_vessel.current_distance_traveled < c3_vessel.total_distance_km ∧
    (update_position c3_vessel 0 0).2.position ≠
      spec_geodesic_point c3_vessel.route_coordinates
        (c3_vessel.current_distance_traveled / c3_vessel.total_distance_km) := by
  have hR : (0:ℝ) < EARTH_RADIUS := by unfold EARTH_RADIUS; norm_num
  have hpi := Real.pi_pos
  have hlt : c3_vessel.current_distance_traveled < c3_vessel.total_distance_km := by
    rw [c3_vessel_total, c3_vessel_traveled]
    nlinarith
  have hfrac : c3_vessel.current_distance_traveled / c3_vessel.total_distance_km
      = 3 / 8 := by
    rw [c3_vessel_total, c3_vessel_traveled, div_eq_iff (by positivity)]
    ring
  have hzero : c3_vessel.speed_km_h * ((0:ℝ) / 60) = 0 := by norm_num
  have hpos : (update_position c3_vessel 0 0).2.position = (30, 60) := by
    rw [update_position_not_complete c3_vessel 0 0 (by rw [hzero]; simpa using hlt)]
    rw [hzero, add_zero, hfrac,
      show c3_vessel.route_coordinates = c3_route from rfl, c3_interp]
  refine ⟨hlt, ?_⟩
  rw [hpos, show c3_vessel.route_coordinates = c3_route from rfl, hfrac,
    c3_spec_point]
  intro hcon
  rw [Prod.ext_iff] at hcon
  norm_num at hcon

/-- C3 (amended): for a vessel whose accumulated traveled distance stays
strictly below the total, `update_position` returns the point obtained by
flat-earth (planar lon/lat) interpolation at fraction traveled/total of
the planar polyline length — shapely's normalized interpolate — while the
fraction itself is computed from geodesic lengths; on the concrete route
`c3_route` at fraction 3/8 the planar point `(30, 60)` differs from the
geodesic point `(0, 45)`. -/
theorem C3_amended (v : Vessel) (m r : ℝ)
    (h : v.current_distance_traveled + v.speed_km_h * (m / 60) <
      v.total_distance_km) :
    (update_position v m r).2.position =
      route_line_interpolate v.route_coordinates
        ((v.current_distance_traveled + v.speed_km_h * (m / 60)) /
          v.total_distance_km) ∧
    route_line_interpolate c3_route (3 / 8) = (30, 60) ∧
    spec_geodesic_point c3_route (3 / 8) = (0, 45) :=
  ⟨update_position_not_complete v m r h, c3_interp, c3_spec_point⟩

/-- C3 witness: the amended statement applied to `c3_vessel` with a
zero-duration tick. -/
theorem C3_amended_witness :
    c3_vessel.current_distance_traveled + c3_vessel.speed_km_h * (0 / 60) <
      c3_vessel.total_distance_km ∧
    (update_position c3_vessel 0 0).2.position =
      route_line_interpolate c3_vessel.route_coordinates
        ((c3_vessel.current_distance_traveled +
          c3_vessel.speed_km_h * (0 / 60)) / c3_vessel.total_distance_km) := by
  have hR : (0:ℝ) < EARTH_RADIUS := by unfold EARTH_RADIUS; norm_num
  have hpi := Real.pi_pos
  have hh : c3_vessel.current_distance_traveled +
      c3_vessel.speed_km_h * (0 / 60) < c3_vessel.total_distance_km := by
    rw [show c3_vessel.speed_km_h * ((0:ℝ) / 60) = 0 by norm_num, add_zero,
      c3_vessel_total, c3_vessel_traveled]
    nlinarith
  exact ⟨hh, (C3_amended c3_vessel 0 0 hh).1⟩

/-- C4: for every vessel whose current speed lies in `[5, 20]` knots — as
holds for every vessel the program creates, `create_vessels_from_routes`
drawing speeds in `[10, 14]` and the constructor default being 12 — the
speed returned by `update_position` after any number of ticks lies in
`[5, 20]`, including ticks on which the route is or becomes complete. -/
theorem C4_speed_bounds (v : Vessel) (ticks : List (ℝ × ℝ)) (m r : ℝ)
    (h5 : 5 ≤ v.speed_knots) (h20 : v.speed_knots ≤ 20) :
    (5 ≤ (update_position (run_updates v ticks) m r).2.speed ∧
     (update_position (run_updates v ticks) m r).2.speed ≤ 20) ∧
    (∀ s : ℝ, 0 ≤ s → s ≤ 1 →
      5 ≤ created_speed s ∧ created_speed s ≤ 20) := by
  have hrun := run_updates_speed ticks v h5 h20
  have hupd := update_position_speed (run_updates v ticks) m r hrun.1 hrun.2
  refine ⟨⟨?_, ?_⟩, ?_⟩
  · rw [hupd.2]; exact hupd.1.1
  · rw [hupd.2]; exact hupd.1.2
  · intro s h0 h1
    unfold created_speed
    constructor <;> nlinarith

/-- C4 witness: a vessel created on `c3_route` with the default speed 12
satisfies the bound hypotheses, and its first tick returns a speed in
`[5, 20]`. -/
theorem C4_speed_bounds_witness :
    (5 ≤ (Vessel.init 200000000 c3_route).speed_knots ∧
     (Vessel.init 200000000 c3_route).speed_knots ≤ 20) ∧
    (5 ≤ (update_position (run_updates (Vessel.init 200000000 c3_route) []) 5
        (1 / 2)).2.speed ∧
     (update_position (run_updates (Vessel.init 200000000 c3_route) []) 5
        (1 / 2)).2.speed ≤ 20) := by
  have h5 : 5 ≤ (Vessel.init 200000000 c3_route).speed_knots := by
    norm_num [Vessel.init]
  have h20 : (Vessel.init 200000000 c3_route).speed_knots ≤ 20 := by
    norm_num [Vessel.init]
  exact ⟨⟨h5, h20⟩,
    (C4_speed_bounds (Vessel.init 200000000 c3_route) [] 5 (1 / 2) h5 h20).1⟩

/-- C5: on a route of at least two waypoints, a tick whose accumulated
distance reaches the total route length returns `complete = true` with the
position exactly the last waypoint, and every later call — after any run
of nonnegative-duration ticks — again returns `complete = true` at that
same last waypoint: the vessel never reactivates. -/
theorem C5_completion_permanent (v : Vessel) (m r m2 r2 : ℝ)
    (ticks : List (ℝ × ℝ)) (hne : v.route_coordinates ≠ [])
    (hlen : 2 ≤ v.route_coordinates.length)
    (hsp : 0 ≤ v.speed_km_h) (hm2 : 0 ≤ m2)
    (hticks : ∀ t ∈ ticks, 0 ≤ t.1)
    (hreach : v.total_distance_km ≤
      v.current_distance_traveled + v.speed_km_h * (m / 60)) :
    ((update_position v m r).2.complete = true ∧
     (update_position v m r).2.position = v.route_coordinates.getLast hne) ∧
    (update_position (run_updates (update_position v m r).1 ticks) m2
        r2).2.complete = true ∧
    (update_position (run_updates (update_position v m r).1 ticks) m2
        r2).2.position = v.route_coordinates.getLast hne := by
  have hlastD : v.route_coordinates.getLastD (0, 0) =
      v.route_coordinates.getLast hne := by
    rw [List.getLastD_eq_getLast?, List.getLast?_eq_getLast _ hne]
    rfl
  have h1 := update_position_complete v m r hreach
  have hrun := run_updates_stay_complete ticks (update_position v m r).1 hticks
    (h1.2.2.2.2.1 ▸ hsp) h1.2.2.2.2.2
  have hd2 : 0 ≤ (run_updates (update_position v m r).1 ticks).speed_km_h *
      (m2 / 60) := mul_nonneg hrun.2.1 (div_nonneg hm2 (by norm_num))
  have h2 := update_position_complete
    (run_updates (update_position v m r).1 ticks) m2 r2 (by linarith [hrun.2.2])
  refine ⟨⟨h1.1, by rw [h1.2.1, hlastD]⟩, h2.1, ?_⟩
  rw [h2.2.1, hrun.1, h1.2.2.1, hlastD]

/-- C5 witness: a vessel on `c3_route` given a tick long enough to overrun
the route completes at the last waypoint `(180, 60)` and is still complete
there after a further run and another tick. -/
theorem C5_completion_permanent_witness :
    (update_position (Vessel.init 7 c3_route 12) 1000000 0).2.complete = true ∧
    (update_position (run_updates
        (update_position (Vessel.init 7 c3_route 12) 1000000 0).1 [(5, 1 / 2)])
        5 0).2.complete = true ∧
    (update_position (run_updates
        (update_position (Vessel.init 7 c3_route 12) 1000000 0).1 [(5, 1 / 2)])
        5 0).2.position = (180, 60) := by
  have hne : (Vessel.init 7 c3_route 12).route_coordinates ≠ [] := by
    simp [Vessel.init, c3_route]
  have hlen : 2 ≤ (Vessel.init 7 c3_route 12).route_coordinates.length := by
    simp [Vessel.init, c3_route]
  have hsp : 0 ≤ (Vessel.init 7 c3_route 12).speed_km_h := by
    norm_num [Vessel.init, KNOTS_TO_KM_PER_HOUR]
  have hticks : ∀ t ∈ [((5:ℝ), (1:ℝ) / 2)], 0 ≤ t.1 := by
    intro t ht
    simp only [List.mem_singleton] at ht
    subst ht
    norm_num
  have hreach : (Vessel.init 7 c3_route 12).total_distance_km ≤
      (Vessel.init 7 c3_route 12).current_distance_traveled +
      (Vessel.init 7 c3_route 12).speed_km_h * (1000000 / 60) := by
    rw [show (Vessel.init 7 c3_route 12).total_distance_km =
        calculate_total_distance c3_route from rfl, c3_total,
      show (Vessel.init 7 c3_route 12).current_distance_traveled = 0 from rfl,
      show (Vessel.init 7 c3_route 12).speed_km_h =
        12 * KNOTS_TO_KM_PER_HOUR from rfl]
    unfold EARTH_RADIUS KNOTS_TO_KM_PER_HOUR
    nlinarith [Real.pi_lt_d2, Real.pi_pos]
  have h := C5_completion_permanent (Vessel.init 7 c3_route 12) 1000000 0 5 0
    [(5, 1 / 2)] hne hlen hsp (by norm_num) hticks hreach
  refine ⟨h.1.1, h.2.1, ?_⟩
  rw [h.2.2]
  rfl
